import Mathlib

/-!
Verification of the Streamlit front-end `app.py` of Ai-doc-generater.

The file shallowly embeds the three page controllers (`analyze_page`,
`readme_page`, `ai_rules_page`).  Each controller is modelled as a pure
function of:
  * the form inputs collected by the widgets,
  * the per-session state (`analysis_running`, `analysis_complete`,
    `generated_files`),
  * the filesystem as observed before the button handler runs (for the
    existence precondition) and after the awaited handler call returns
    (for result rendering),
  * the outcome of the awaited external handler call, modelled as
    `Except String Unit` (an exception carries its message string),
  * whether the best-effort `Logger.error` call itself raises.
It returns the new session state together with the ordered list of UI
effects the interaction produces (error boxes, success boxes, rendered
markdown, download buttons, the configuration object passed to the
external handler, and log writes).
-/

/-- A markdown file as returned by `Path.glob("*.md")`, snapshotted with
the contents that `read_text()` yields for it. -/
structure MdFile where
  name : String
  content : String
deriving Repr, DecidableEq

/-- A filesystem node at one of the fixed artifact locations of the AI
Rules page: a regular file with its contents, or a directory together
with the markdown files that `glob("*.md")` finds inside it. -/
inductive Node where
  | file (content : String)
  | dir (mdChildren : List MdFile)
deriving Repr, DecidableEq

/-- The filesystem as observed by one page interaction, relative to the
submitted repository path.  Each field corresponds to one query the code
makes: `Path(repo_path).exists()` (`rootExists`), the directory
`repo/.ai/docs` with its markdown members (`docsDir`, `none` when the
directory does not exist), the regular file `repo/README.md` (`readme`),
and the three AI-rules artifact locations `repo/CLAUDE.md`,
`repo/AGENTS.md` and `repo/.cursor/rules` (`claude`, `agents`,
`cursorRules`, each `none` when `exists()` is false). -/
structure FS where
  rootExists : Bool
  docsDir : Option (List MdFile)
  readme : Option String
  claude : Option Node
  agents : Option Node
  cursorRules : Option Node
deriving Repr, DecidableEq

/-- The session state variables set up by `init_session_state`. -/
structure SessionState where
  analysis_running : Bool
  analysis_complete : Bool
  generated_files : List MdFile
deriving Repr, DecidableEq

/-- The configuration value object passed to `AnalyzeHandler`. -/
structure AnalyzeHandlerConfig where
  repo_path : String
  exclude_code_structure : Bool
  exclude_dependencies : Bool
  exclude_data_flow : Bool
  exclude_request_flow : Bool
  exclude_api_analysis : Bool
  max_workers : Nat
deriving Repr, DecidableEq

/-- The configuration value object passed to `ReadmeHandler`. -/
structure ReadmeHandlerConfig where
  repo_path : String
  use_existing_readme : Bool
  exclude_project_overview : Bool
  exclude_table_of_contents : Bool
  exclude_architecture : Bool
  exclude_c4_model : Bool
  exclude_repository_structure : Bool
  exclude_dependencies_and_integration : Bool
  exclude_api_documentation : Bool
  exclude_development_notes : Bool
  exclude_known_issues_and_limitations : Bool
  exclude_additional_documentation : Bool
deriving Repr, DecidableEq

/-- The three options offered by the Detail Level selectbox. -/
inductive DetailLevel where
  | minimal
  | standard
  | comprehensive
deriving Repr, DecidableEq

/-- The string value the selectbox hands back for each option. -/
def DetailLevel.toStr : DetailLevel → String
  | .minimal => "minimal"
  | .standard => "standard"
  | .comprehensive => "comprehensive"

/-- The configuration value object passed to `AIRulesHandler`. -/
structure AIRulesHandlerConfig where
  repo_path : String
  skip_existing_claude_md : Bool
  skip_existing_agents_md : Bool
  skip_existing_cursor_rules : Bool
  detail_level : String
  max_claude_lines : Nat
  max_agents_lines : Nat
deriving Repr, DecidableEq

/-- One observable UI or side effect of a page interaction, in program
order: Streamlit output calls, download buttons, the invocation of an
external handler with its configuration object, and a successful
`Logger.error` write. -/
inductive Effect where
  | stError (msg : String)
  | stSuccess (msg : String)
  | stMarkdown (text : String)
  | stInfo (msg : String)
  | stCode (text : String)
  | expander (title : String)
  | downloadButton (fileName : String) (data : String)
  | logError (msg : String)
  | callAnalyze (cfg : AnalyzeHandlerConfig)
  | callReadme (cfg : ReadmeHandlerConfig)
  | callAIRules (cfg : AIRulesHandlerConfig)
deriving Repr, DecidableEq

/-- `st.number_input` with `min_value` and `max_value`: the widget only
ever hands back a value inside the closed interval, so the raw value the
user types is clamped into `[lo, hi]`. -/
def stNumberInput (lo hi x : Nat) : Nat := min hi (max lo x)

/-! ## Analyze page (`analyze_page`, app.py lines 130-229) -/

/-- The form inputs of the Analyze page: the path text field, the raw
Max Workers value before widget clamping, and the five exclusion
checkboxes. -/
structure AnalyzeInputs where
  repo_path : String
  max_workers_raw : Nat
  exclude_structure : Bool
  exclude_dependencies : Bool
  exclude_data_flow : Bool
  exclude_request_flow : Bool
  exclude_api : Bool
deriving Repr, DecidableEq

/-- Construction of `AnalyzeHandlerConfig` from the form inputs
(app.py lines 182-190), with the Max Workers widget bounds 0 and 20
(lines 148-154). -/
def mkAnalyzeConfig (inp : AnalyzeInputs) : AnalyzeHandlerConfig :=
  { repo_path := inp.repo_path
  , exclude_code_structure := inp.exclude_structure
  , exclude_dependencies := inp.exclude_dependencies
  , exclude_data_flow := inp.exclude_data_flow
  , exclude_request_flow := inp.exclude_request_flow
  , exclude_api_analysis := inp.exclude_api
  , max_workers := stNumberInput 0 20 inp.max_workers_raw }

/-- The result section at the bottom of `analyze_page` (lines 214-229):
when `analysis_complete` is set and `generated_files` is a non-empty
list, each stored file is rendered in an expander with its markdown
content and a download button. -/
def analyzeDisplay (s : SessionState) : List Effect :=
  if s.analysis_complete && !s.generated_files.isEmpty then
    (s.generated_files.map fun f =>
      [Effect.expander ("📝 " ++ f.name), Effect.stMarkdown f.content,
       Effect.downloadButton f.name f.content]).flatten
  else []

/-- The Analyze page controller (lines 172-229).  `clicked` is whether
the Start Analysis button was pressed this rerun; `hres` is the outcome
of `asyncio.run(run_analysis ...)`; `fsPost` is the filesystem after
that call returns; `logRaises` is whether the `Logger.error` call in the
except branch itself raises (in which case it is swallowed by the inner
bare except). -/
def analyze_page (clicked : Bool) (inp : AnalyzeInputs) (s : SessionState)
    (fsPre : FS) (hres : Except String Unit) (fsPost : FS)
    (logRaises : Bool) : SessionState × List Effect :=
  if clicked then
    if !fsPre.rootExists then
      (s, [Effect.stError ("❌ Repository path does not exist: " ++ inp.repo_path)])
    else
      let s1 : SessionState := { s with analysis_running := true, analysis_complete := false }
      let cfg := mkAnalyzeConfig inp
      match hres with
      | .ok _ =>
        let s2 : SessionState := { s1 with analysis_running := false, analysis_complete := true }
        let s3 : SessionState :=
          match fsPost.docsDir with
          | some files => { s2 with generated_files := files }
          | none => s2
        (s3, [Effect.callAnalyze cfg,
              Effect.stSuccess "✅ Analysis completed successfully!"]
             ++ analyzeDisplay s3)
      | .error e =>
        let s2 : SessionState := { s1 with analysis_running := false }
        (s2, [Effect.callAnalyze cfg,
              Effect.stError ("❌ Analysis failed: " ++ e)]
             ++ (if logRaises then [] else [Effect.logError ("Analysis error: " ++ e)])
             ++ analyzeDisplay s2)
  else (s, analyzeDisplay s)

/-! ## Readme page (`readme_page`, app.py lines 232-319) -/

/-- The form inputs of the Readme page: the path text field, the
Use Existing README checkbox and the nine section-exclusion
checkboxes. -/
structure ReadmeInputs where
  repo_path : String
  use_existing : Bool
  exclude_overview : Bool
  exclude_toc : Bool
  exclude_architecture : Bool
  exclude_c4 : Bool
  exclude_structure : Bool
  exclude_dependencies : Bool
  exclude_api : Bool
  exclude_dev_notes : Bool
  exclude_issues : Bool
deriving Repr, DecidableEq

/-- Construction of `ReadmeHandlerConfig` from the form inputs
(app.py lines 279-292); `exclude_additional_documentation` is passed the
literal `False`. -/
def mkReadmeConfig (inp : ReadmeInputs) : ReadmeHandlerConfig :=
  { repo_path := inp.repo_path
  , use_existing_readme := inp.use_existing
  , exclude_project_overview := inp.exclude_overview
  , exclude_table_of_contents := inp.exclude_toc
  , exclude_architecture := inp.exclude_architecture
  , exclude_c4_model := inp.exclude_c4
  , exclude_repository_structure := inp.exclude_structure
  , exclude_dependencies_and_integration := inp.exclude_dependencies
  , exclude_api_documentation := inp.exclude_api
  , exclude_development_notes := inp.exclude_dev_notes
  , exclude_known_issues_and_limitations := inp.exclude_issues
  , exclude_additional_documentation := false }

/-- The Readme page controller (lines 272-319).  The session state is
never touched by this page; it is threaded through unchanged. -/
def readme_page (clicked : Bool) (inp : ReadmeInputs) (s : SessionState)
    (fsPre : FS) (hres : Except String Unit) (fsPost : FS)
    (logRaises : Bool) : SessionState × List Effect :=
  if clicked then
    if !fsPre.rootExists then
      (s, [Effect.stError ("❌ Repository path does not exist: " ++ inp.repo_path)])
    else
      let cfg := mkReadmeConfig inp
      match hres with
      | .ok _ =>
        (s, [Effect.callReadme cfg,
             Effect.stSuccess "✅ README generated successfully!"]
            ++ match fsPost.readme with
               | some content =>
                 [Effect.stMarkdown "### 📄 Generated README.md",
                  Effect.stMarkdown content,
                  Effect.downloadButton "README.md" content]
               | none => [])
      | .error e =>
        (s, [Effect.callReadme cfg,
             Effect.stError ("❌ README generation failed: " ++ e)]
            ++ (if logRaises then [] else [Effect.logError ("README generation error: " ++ e)]))
  else (s, [])

/-! ## AI Rules page (`ai_rules_page`, app.py lines 322-411) -/

/-- The form inputs of the AI Rules page: the path text field, three
skip checkboxes, the Detail Level selectbox (which only ever yields one
of its three options), and the two raw line-limit values before widget
clamping. -/
structure AIRulesInputs where
  repo_path : String
  skip_claude : Bool
  skip_agents : Bool
  skip_cursor : Bool
  detail_level : DetailLevel
  max_claude_raw : Nat
  max_agents_raw : Nat
deriving Repr, DecidableEq

/-- Construction of `AIRulesHandlerConfig` from the form inputs
(app.py lines 363-371), with the widget bounds 100-2000 and 50-500
(lines 351-352). -/
def mkAIRulesConfig (inp : AIRulesInputs) : AIRulesHandlerConfig :=
  { repo_path := inp.repo_path
  , skip_existing_claude_md := inp.skip_claude
  , skip_existing_agents_md := inp.skip_agents
  , skip_existing_cursor_rules := inp.skip_cursor
  , detail_level := inp.detail_level.toStr
  , max_claude_lines := stNumberInput 100 2000 inp.max_claude_raw
  , max_agents_lines := stNumberInput 50 500 inp.max_agents_raw }

/-- Rendering of one AI-rules artifact location (lines 386-403): nothing
when the location does not exist; an expander with markdown content and
a download button when it is a regular file; an expander with an info
box and the list of markdown children (name plus code block) when it is
a directory. -/
def renderArtifact (node : Option Node) (displayName : String) : List Effect :=
  match node with
  | none => []
  | some (.file content) =>
    [Effect.expander ("📝 " ++ displayName),
     Effect.stMarkdown content,
     Effect.downloadButton displayName content]
  | some (.dir children) =>
    [Effect.expander ("📝 " ++ displayName),
     Effect.stInfo "Directory created"]
    ++ (children.map fun f =>
         [Effect.stMarkdown ("**" ++ f.name ++ "**"),
          Effect.stCode f.content]).flatten

/-- The AI Rules page controller (lines 356-411).  The session state is
never touched by this page; it is threaded through unchanged. -/
def ai_rules_page (clicked : Bool) (inp : AIRulesInputs) (s : SessionState)
    (fsPre : FS) (hres : Except String Unit) (fsPost : FS)
    (logRaises : Bool) : SessionState × List Effect :=
  if clicked then
    if !fsPre.rootExists then
      (s, [Effect.stError ("❌ Repository path does not exist: " ++ inp.repo_path)])
    else
      let cfg := mkAIRulesConfig inp
      match hres with
      | .ok _ =>
        (s, [Effect.callAIRules cfg,
             Effect.stSuccess "✅ AI rules generated successfully!",
             Effect.stMarkdown "### 📄 Generated Files"]
            ++ renderArtifact fsPost.claude "CLAUDE.md"
            ++ renderArtifact fsPost.agents "AGENTS.md"
            ++ renderArtifact fsPost.cursorRules "Cursor Rules")
      | .error e =>
        (s, [Effect.callAIRules cfg,
             Effect.stError ("❌ AI rules generation failed: " ++ e)]
            ++ (if logRaises then [] else [Effect.logError ("AI rules generation error: " ++ e)]))
  else (s, [])

/-! ## Observation helpers -/

/-- The configuration objects handed to `AnalyzeHandler` during an
interaction, in order. -/
def passedAnalyzeCfgs (es : List Effect) : List AnalyzeHandlerConfig :=
  es.filterMap fun e =>
    match e with
    | .callAnalyze c => some c
    | _ => none

/-- The configuration objects handed to `ReadmeHandler` during an
interaction, in order. -/
def passedReadmeCfgs (es : List Effect) : List ReadmeHandlerConfig :=
  es.filterMap fun e =>
    match e with
    | .callReadme c => some c
    | _ => none

/-- The configuration objects handed to `AIRulesHandler` during an
interaction, in order. -/
def passedAIRulesCfgs (es : List Effect) : List AIRulesHandlerConfig :=
  es.filterMap fun e =>
    match e with
    | .callAIRules c => some c
    | _ => none

/-- The (file name, data) pairs offered for download during an
interaction, in order. -/
def downloadsOf (es : List Effect) : List (String × String) :=
  es.filterMap fun e =>
    match e with
    | .downloadButton n d => some (n, d)
    | _ => none

/-! ## Helper lemmas -/

theorem passedAnalyzeCfgs_fileBlocks (l : List MdFile) :
    passedAnalyzeCfgs ((l.map fun f =>
      [Effect.expander ("📝 " ++ f.name), Effect.stMarkdown f.content,
       Effect.downloadButton f.name f.content]).flatten) = [] := by
  induction l with
  | nil => rfl
  | cons f t ih => simp [passedAnalyzeCfgs, List.filterMap_cons]

theorem passedAnalyzeCfgs_analyzeDisplay (s : SessionState) :
    passedAnalyzeCfgs (analyzeDisplay s) = [] := by
  unfold analyzeDisplay
  split
  · exact passedAnalyzeCfgs_fileBlocks s.generated_files
  · rfl

theorem downloadsOf_fileBlocks (l : List MdFile) :
    downloadsOf ((l.map fun f =>
      [Effect.expander ("📝 " ++ f.name), Effect.stMarkdown f.content,
       Effect.downloadButton f.name f.content]).flatten)
      = l.map fun f => (f.name, f.content) := by
  induction l with
  | nil => rfl
  | cons f t ih => simpa [downloadsOf, List.filterMap_cons] using ih

theorem downloadsOf_analyzeDisplay (b : Bool) (l : List MdFile) :
    downloadsOf (analyzeDisplay { analysis_running := b, analysis_complete := true, generated_files := l })
      = l.map fun f => (f.name, f.content) := by
  cases l with
  | nil => rfl
  | cons f t =>
    unfold analyzeDisplay
    simpa using downloadsOf_fileBlocks (f :: t)

theorem passedAIRulesCfgs_dirBlocks (l : List MdFile) :
    passedAIRulesCfgs ((l.map fun f =>
      [Effect.stMarkdown ("**" ++ f.name ++ "**"),
       Effect.stCode f.content]).flatten) = [] := by
  induction l with
  | nil => rfl
  | cons f t ih => simp [passedAIRulesCfgs, List.filterMap_cons]

theorem passedAIRulesCfgs_renderArtifact (node : Option Node) (name : String) :
    passedAIRulesCfgs (renderArtifact node name) = [] := by
  match node with
  | none => rfl
  | some (.file content) => rfl
  | some (.dir children) =>
    simp [renderArtifact, passedAIRulesCfgs, List.filterMap_append,
      List.filterMap_cons]

/-! ## Claim theorems -/

/-- Claim C2: for every one of the three page controllers, if the
submitted repository path does not exist on the filesystem, the
controller shows an error message and returns without invoking the
corresponding handler: the whole effect list of the interaction is the
single error box and, in particular, no handler call occurs. -/
theorem C2_nonexistent_path_no_handler_call
    (ainp : AnalyzeInputs) (rinp : ReadmeInputs) (binp : AIRulesInputs)
    (s : SessionState) (fsPre fsPost : FS) (hres : Except String Unit)
    (logRaises : Bool)
    (hroot : fsPre.rootExists = false) :
    (analyze_page true ainp s fsPre hres fsPost logRaises).2
      = [Effect.stError ("❌ Repository path does not exist: " ++ ainp.repo_path)]
    ∧ (readme_page true rinp s fsPre hres fsPost logRaises).2
      = [Effect.stError ("❌ Repository path does not exist: " ++ rinp.repo_path)]
    ∧ (ai_rules_page true binp s fsPre hres fsPost logRaises).2
      = [Effect.stError ("❌ Repository path does not exist: " ++ binp.repo_path)]
    ∧ passedAnalyzeCfgs (analyze_page true ainp s fsPre hres fsPost logRaises).2 = []
    ∧ passedReadmeCfgs (readme_page true rinp s fsPre hres fsPost logRaises).2 = []
    ∧ passedAIRulesCfgs (ai_rules_page true binp s fsPre hres fsPost logRaises).2 = [] := by
  simp [analyze_page, readme_page, ai_rules_page, hroot,
        passedAnalyzeCfgs, passedReadmeCfgs, passedAIRulesCfgs]

/-- Claim C9: for every invocation of any of the three page controllers
in which the submitted repository path does not exist, the session state
is left entirely unchanged: the controller returns before mutating
`analysis_running`, `analysis_complete` or `generated_files`. -/
theorem C9_nonexistent_path_session_unchanged
    (ainp : AnalyzeInputs) (rinp : ReadmeInputs) (binp : AIRulesInputs)
    (s : SessionState) (fsPre fsPost : FS) (hres : Except String Unit)
    (logRaises : Bool)
    (hroot : fsPre.rootExists = false) :
    (analyze_page true ainp s fsPre hres fsPost logRaises).1 = s
    ∧ (readme_page true rinp s fsPre hres fsPost logRaises).1 = s
    ∧ (ai_rules_page true binp s fsPre hres fsPost logRaises).1 = s := by
  simp [analyze_page, readme_page, ai_rules_page, hroot]

/-- Claim C10: the Readme and AI Rules page controllers never write the
session-state fields: for every interaction, whatever the click state,
filesystem, handler outcome and logger behaviour, the session state they
return is exactly the one they were given, so the results of a prior
Analyze run persist unmodified across Readme and AI Rules
invocations. -/
theorem readme_page_fst (clicked : Bool) (inp : ReadmeInputs) (s : SessionState)
    (fsPre : FS) (hres : Except String Unit) (fsPost : FS) (logRaises : Bool) :
    (readme_page clicked inp s fsPre hres fsPost logRaises).1 = s := by
  unfold readme_page
  repeat' split
  all_goals rfl

theorem ai_rules_page_fst (clicked : Bool) (inp : AIRulesInputs) (s : SessionState)
    (fsPre : FS) (hres : Except String Unit) (fsPost : FS) (logRaises : Bool) :
    (ai_rules_page clicked inp s fsPre hres fsPost logRaises).1 = s := by
  unfold ai_rules_page
  repeat' split
  all_goals rfl

theorem C10_readme_ai_rules_frame
    (rinp : ReadmeInputs) (binp : AIRulesInputs) (clicked : Bool)
    (s : SessionState) (fsPre fsPost : FS) (hres : Except String Unit)
    (logRaises : Bool) :
    (readme_page clicked rinp s fsPre hres fsPost logRaises).1 = s
    ∧ (ai_rules_page clicked binp s fsPre hres fsPost logRaises).1 = s :=
  ⟨readme_page_fst clicked rinp s fsPre hres fsPost logRaises,
   ai_rules_page_fst clicked binp s fsPre hres fsPost logRaises⟩

theorem analyze_page_running (clicked : Bool) (inp : AnalyzeInputs) (s : SessionState)
    (fsPre : FS) (hres : Except String Unit) (fsPost : FS) (logRaises : Bool)
    (hs : s.analysis_running = false) :
    (analyze_page clicked inp s fsPre hres fsPost logRaises).1.analysis_running = false := by
  unfold analyze_page
  dsimp only
  repeat' split
  all_goals first | exact hs | rfl

theorem passedAnalyzeCfgs_run (inp : AnalyzeInputs) (s : SessionState)
    (fsPre : FS) (hres : Except String Unit) (fsPost : FS) (lr : Bool)
    (hroot : fsPre.rootExists = true) :
    passedAnalyzeCfgs (analyze_page true inp s fsPre hres fsPost lr).2
      = [mkAnalyzeConfig inp] := by
  cases hres <;> cases lr <;>
    simp [analyze_page, hroot, passedAnalyzeCfgs, List.filterMap_append] <;>
    exact List.filterMap_eq_nil_iff.mp (passedAnalyzeCfgs_analyzeDisplay _)

theorem passedReadmeCfgs_run (inp : ReadmeInputs) (s : SessionState)
    (fsPre : FS) (hres : Except String Unit) (fsPost : FS) (lr : Bool)
    (hroot : fsPre.rootExists = true) :
    passedReadmeCfgs (readme_page true inp s fsPre hres fsPost lr).2
      = [mkReadmeConfig inp] := by
  cases hres <;> cases lr <;> cases hr : fsPost.readme <;>
    simp [readme_page, hroot, hr, passedReadmeCfgs, List.filterMap_append]

theorem passedAIRulesCfgs_run (inp : AIRulesInputs) (s : SessionState)
    (fsPre : FS) (hres : Except String Unit) (fsPost : FS) (lr : Bool)
    (hroot : fsPre.rootExists = true) :
    passedAIRulesCfgs (ai_rules_page true inp s fsPre hres fsPost lr).2
      = [mkAIRulesConfig inp] := by
  cases hres <;> cases lr <;>
    simp [ai_rules_page, hroot, passedAIRulesCfgs, List.filterMap_append] <;>
    exact ⟨List.filterMap_eq_nil_iff.mp (passedAIRulesCfgs_renderArtifact _ _),
           List.filterMap_eq_nil_iff.mp (passedAIRulesCfgs_renderArtifact _ _),
           List.filterMap_eq_nil_iff.mp (passedAIRulesCfgs_renderArtifact _ _)⟩

/-- Claim C1: an exception raised by the awaited handler call is caught
at the page-controller boundary of each of the three pages, converted to
a user-visible error box, and best-effort logged (the log write happens
exactly when the logging call itself does not raise; a raising logging
call is swallowed); the page functions are total, so the exception never
propagates, and after every invocation from a session with
`analysis_running = false` the flag is still `false` (the Analyze page
additionally resets it unconditionally on both handler outcomes). -/
theorem C1_handler_exception_contained
    (ainp : AnalyzeInputs) (rinp : ReadmeInputs) (binp : AIRulesInputs)
    (clicked : Bool) (hres : Except String Unit) (s : SessionState)
    (fsPre fsPost : FS) (e : String) (logRaises : Bool)
    (hs : s.analysis_running = false) (hroot : fsPre.rootExists = true) :
    (analyze_page clicked ainp s fsPre hres fsPost logRaises).1.analysis_running = false
    ∧ (readme_page clicked rinp s fsPre hres fsPost logRaises).1.analysis_running = false
    ∧ (ai_rules_page clicked binp s fsPre hres fsPost logRaises).1.analysis_running = false
    ∧ (analyze_page true ainp s fsPre (Except.error e) fsPost logRaises).1.analysis_running = false
    ∧ Effect.stError ("❌ Analysis failed: " ++ e)
        ∈ (analyze_page true ainp s fsPre (Except.error e) fsPost logRaises).2
    ∧ (Effect.logError ("Analysis error: " ++ e)
        ∈ (analyze_page true ainp s fsPre (Except.error e) fsPost logRaises).2
        ↔ logRaises = false)
    ∧ Effect.stError ("❌ README generation failed: " ++ e)
        ∈ (readme_page true rinp s fsPre (Except.error e) fsPost logRaises).2
    ∧ (Effect.logError ("README generation error: " ++ e)
        ∈ (readme_page true rinp s fsPre (Except.error e) fsPost logRaises).2
        ↔ logRaises = false)
    ∧ Effect.stError ("❌ AI rules generation failed: " ++ e)
        ∈ (ai_rules_page true binp s fsPre (Except.error e) fsPost logRaises).2
    ∧ (Effect.logError ("AI rules generation error: " ++ e)
        ∈ (ai_rules_page true binp s fsPre (Except.error e) fsPost logRaises).2
        ↔ logRaises = false) := by
  refine ⟨analyze_page_running clicked ainp s fsPre hres fsPost logRaises hs,
          ?_, ?_,
          analyze_page_running true ainp s fsPre (Except.error e) fsPost logRaises hs,
          ?_, ?_, ?_, ?_, ?_, ?_⟩
  · rw [readme_page_fst]; exact hs
  · rw [ai_rules_page_fst]; exact hs
  all_goals cases logRaises <;>
    simp [analyze_page, readme_page, ai_rules_page, hroot, analyzeDisplay]

/-- Claim C6: the configuration object passed to the handler is a pure
function of the submitted form inputs: for every invocation it equals
`mk...Config` of the inputs, whatever the session state, filesystem,
handler outcome and logger behaviour, so two invocations of the same
page with identical form values pass field-identical configuration
objects; exactly one configuration object is constructed per invocation
and it is never mutated before the handler call. -/
theorem C6_config_pure_function
    (ainp : AnalyzeInputs) (rinp : ReadmeInputs) (binp : AIRulesInputs)
    (s s' : SessionState) (fsPre fsPre' fsPost fsPost' : FS)
    (hres hres' : Except String Unit) (lr lr' : Bool)
    (h1 : fsPre.rootExists = true) (h2 : fsPre'.rootExists = true) :
    passedAnalyzeCfgs (analyze_page true ainp s fsPre hres fsPost lr).2
      = [mkAnalyzeConfig ainp]
    ∧ passedAnalyzeCfgs (analyze_page true ainp s' fsPre' hres' fsPost' lr').2
      = passedAnalyzeCfgs (analyze_page true ainp s fsPre hres fsPost lr).2
    ∧ passedReadmeCfgs (readme_page true rinp s fsPre hres fsPost lr).2
      = [mkReadmeConfig rinp]
    ∧ passedReadmeCfgs (readme_page true rinp s' fsPre' hres' fsPost' lr').2
      = passedReadmeCfgs (readme_page true rinp s fsPre hres fsPost lr).2
    ∧ passedAIRulesCfgs (ai_rules_page true binp s fsPre hres fsPost lr).2
      = [mkAIRulesConfig binp]
    ∧ passedAIRulesCfgs (ai_rules_page true binp s' fsPre' hres' fsPost' lr').2
      = passedAIRulesCfgs (ai_rules_page true binp s fsPre hres fsPost lr).2 := by
  refine ⟨passedAnalyzeCfgs_run ainp s fsPre hres fsPost lr h1, ?_,
          passedReadmeCfgs_run rinp s fsPre hres fsPost lr h1, ?_,
          passedAIRulesCfgs_run binp s fsPre hres fsPost lr h1, ?_⟩
  · rw [passedAnalyzeCfgs_run ainp s fsPre hres fsPost lr h1,
        passedAnalyzeCfgs_run ainp s' fsPre' hres' fsPost' lr' h2]
  · rw [passedReadmeCfgs_run rinp s fsPre hres fsPost lr h1,
        passedReadmeCfgs_run rinp s' fsPre' hres' fsPost' lr' h2]
  · rw [passedAIRulesCfgs_run binp s fsPre hres fsPost lr h1,
        passedAIRulesCfgs_run binp s' fsPre' hres' fsPost' lr' h2]

/-- Claim C7: the `ReadmeHandlerConfig` passed to the handler in every
Readme invocation has `exclude_additional_documentation = false`: the
construction site passes the literal and no form control feeds the
field. -/
theorem C7_exclude_additional_documentation_false
    (inp : ReadmeInputs) (s : SessionState) (fsPre fsPost : FS)
    (hres : Except String Unit) (lr : Bool)
    (hroot : fsPre.rootExists = true) :
    passedReadmeCfgs (readme_page true inp s fsPre hres fsPost lr).2
      = [mkReadmeConfig inp]
    ∧ ∀ cfg ∈ passedReadmeCfgs (readme_page true inp s fsPre hres fsPost lr).2,
        cfg.exclude_additional_documentation = false := by
  refine ⟨passedReadmeCfgs_run inp s fsPre hres fsPost lr hroot, ?_⟩
  intro cfg hcfg
  rw [passedReadmeCfgs_run inp s fsPre hres fsPost lr hroot] at hcfg
  simp at hcfg
  subst hcfg
  rfl

/-- Claim C8: every configuration object this layer constructs has its
numeric and enumerated fields in the declared ranges: `max_workers` is
between 0 and 20, `detail_level` is one of the three selectbox options,
`max_claude_lines` is between 100 and 2000 and `max_agents_lines` is
between 50 and 500, for every raw form input. -/
theorem C8_config_field_ranges (ainp : AnalyzeInputs) (binp : AIRulesInputs) :
    (mkAnalyzeConfig ainp).max_workers ≤ 20
    ∧ (mkAIRulesConfig binp).detail_level ∈ ["minimal", "standard", "comprehensive"]
    ∧ 100 ≤ (mkAIRulesConfig binp).max_claude_lines
    ∧ (mkAIRulesConfig binp).max_claude_lines ≤ 2000
    ∧ 50 ≤ (mkAIRulesConfig binp).max_agents_lines
    ∧ (mkAIRulesConfig binp).max_agents_lines ≤ 500 := by
  refine ⟨?_, ?_, ?_, ?_, ?_, ?_⟩
  · simp only [mkAnalyzeConfig, stNumberInput]; omega
  · cases h : binp.detail_level <;> simp [mkAIRulesConfig, DetailLevel.toStr, h]
  · simp only [mkAIRulesConfig, stNumberInput]; omega
  · simp only [mkAIRulesConfig, stNumberInput]; omega
  · simp only [mkAIRulesConfig, stNumberInput]; omega
  · simp only [mkAIRulesConfig, stNumberInput]; omega

theorem downloadsOf_append (a b : List Effect) :
    downloadsOf (a ++ b) = downloadsOf a ++ downloadsOf b :=
  List.filterMap_append a b _

theorem downloadsOf_dirBlocks (l : List MdFile) :
    downloadsOf ((l.map fun f =>
      [Effect.stMarkdown ("**" ++ f.name ++ "**"),
       Effect.stCode f.content]).flatten) = [] := by
  induction l with
  | nil => rfl
  | cons f t ih => simp [downloadsOf, List.filterMap_cons]

/-- Claim C4: for every Readme invocation whose handler call returns
without raising, the page renders (and offers for download) exactly the
verbatim contents of `repo/README.md` when that file exists after the
call returns, and renders and offers nothing beyond the success box when
it does not. -/
theorem C4_readme_display_iff
    (inp : ReadmeInputs) (s : SessionState) (fsPre fsPost : FS) (lr : Bool)
    (hroot : fsPre.rootExists = true) :
    (∀ content, fsPost.readme = some content →
        (readme_page true inp s fsPre (Except.ok ()) fsPost lr).2
          = [Effect.callReadme (mkReadmeConfig inp),
             Effect.stSuccess "✅ README generated successfully!",
             Effect.stMarkdown "### 📄 Generated README.md",
             Effect.stMarkdown content,
             Effect.downloadButton "README.md" content])
    ∧ (fsPost.readme = none →
        (readme_page true inp s fsPre (Except.ok ()) fsPost lr).2
          = [Effect.callReadme (mkReadmeConfig inp),
             Effect.stSuccess "✅ README generated successfully!"]) := by
  constructor
  · intro content h
    simp [readme_page, hroot, h]
  · intro h
    simp [readme_page, hroot, h]

/-- Claim C5: for every AI Rules invocation whose handler call returns
without raising, the effect list is the handler call, the success box
and the rendering of the three fixed artifact locations in order; a
location renders nothing exactly when it does not exist, an existing
regular file renders its markdown content with a download button, and an
existing directory renders an info box and the enumeration of its
markdown children as code blocks, with no download of file content. -/
theorem C5_ai_rules_artifacts
    (inp : AIRulesInputs) (s : SessionState) (fsPre fsPost : FS) (lr : Bool)
    (hroot : fsPre.rootExists = true) :
    (ai_rules_page true inp s fsPre (Except.ok ()) fsPost lr).2
      = [Effect.callAIRules (mkAIRulesConfig inp),
         Effect.stSuccess "✅ AI rules generated successfully!",
         Effect.stMarkdown "### 📄 Generated Files"]
        ++ renderArtifact fsPost.claude "CLAUDE.md"
        ++ renderArtifact fsPost.agents "AGENTS.md"
        ++ renderArtifact fsPost.cursorRules "Cursor Rules"
    ∧ (∀ name node, renderArtifact node name = [] ↔ node = none)
    ∧ (∀ name content, renderArtifact (some (Node.file content)) name
        = [Effect.expander ("📝 " ++ name), Effect.stMarkdown content,
           Effect.downloadButton name content])
    ∧ (∀ name children, renderArtifact (some (Node.dir children)) name
        = [Effect.expander ("📝 " ++ name), Effect.stInfo "Directory created"]
          ++ (children.map fun f =>
               [Effect.stMarkdown ("**" ++ f.name ++ "**"),
                Effect.stCode f.content]).flatten)
    ∧ (∀ name children,
        downloadsOf (renderArtifact (some (Node.dir children)) name) = []) := by
  refine ⟨?_, ?_, fun name content => rfl, fun name children => rfl, ?_⟩
  · simp [ai_rules_page, hroot]
  · intro name node
    match node with
    | none => simp [renderArtifact]
    | some (.file content) => simp [renderArtifact]
    | some (.dir children) => simp [renderArtifact]
  · intro name children
    simp [renderArtifact, downloadsOf, List.filterMap_append,
      List.filterMap_cons]

/-- Claim C3 (amended): for every Analyze invocation whose handler call
returns without raising, if `repo/.ai/docs` exists after the call then
`generated_files` is set to its markdown members and exactly those files
are displayed and offered for download; if the directory does not exist,
`generated_files` keeps its previous value and those earlier files (if
any) are displayed again. -/
theorem C3_amended_display_matches_docs
    (inp : AnalyzeInputs) (s : SessionState) (fsPre fsPost : FS) (lr : Bool)
    (hroot : fsPre.rootExists = true) :
    (∀ files, fsPost.docsDir = some files →
        (analyze_page true inp s fsPre (Except.ok ()) fsPost lr).1.generated_files = files
        ∧ downloadsOf (analyze_page true inp s fsPre (Except.ok ()) fsPost lr).2
            = files.map fun f => (f.name, f.content))
    ∧ (fsPost.docsDir = none →
        (analyze_page true inp s fsPre (Except.ok ()) fsPost lr).1.generated_files
            = s.generated_files
        ∧ downloadsOf (analyze_page true inp s fsPre (Except.ok ()) fsPost lr).2
            = s.generated_files.map fun f => (f.name, f.content)) := by
  constructor
  · intro files h
    constructor
    · simp [analyze_page, hroot, h]
    · have e1 : (analyze_page true inp s fsPre (Except.ok ()) fsPost lr).2
          = [Effect.callAnalyze (mkAnalyzeConfig inp),
             Effect.stSuccess "✅ Analysis completed successfully!"]
            ++ analyzeDisplay { analysis_running := false, analysis_complete := true,
                                generated_files := files } := by
        simp [analyze_page, hroot, h]
      rw [e1, downloadsOf_append, downloadsOf_analyzeDisplay]
      rfl
  · intro h
    constructor
    · simp [analyze_page, hroot, h]
    · have e1 : (analyze_page true inp s fsPre (Except.ok ()) fsPost lr).2
          = [Effect.callAnalyze (mkAnalyzeConfig inp),
             Effect.stSuccess "✅ Analysis completed successfully!"]
            ++ analyzeDisplay { analysis_running := false, analysis_complete := true,
                                generated_files := s.generated_files } := by
        simp [analyze_page, hroot, h]
      rw [e1, downloadsOf_append, downloadsOf_analyzeDisplay]
      rfl

/-! ## Concrete instances -/

/-- Concrete Analyze form inputs. -/
def ainpW : AnalyzeInputs :=
  { repo_path := "/repo", max_workers_raw := 0, exclude_structure := false,
    exclude_dependencies := false, exclude_data_flow := false,
    exclude_request_flow := false, exclude_api := false }

/-- Concrete Readme form inputs. -/
def rinpW : ReadmeInputs :=
  { repo_path := "/repo", use_existing := false, exclude_overview := false,
    exclude_toc := false, exclude_architecture := false, exclude_c4 := false,
    exclude_structure := false, exclude_dependencies := false,
    exclude_api := false, exclude_dev_notes := false, exclude_issues := false }

/-- Concrete AI Rules form inputs. -/
def binpW : AIRulesInputs :=
  { repo_path := "/repo", skip_claude := false, skip_agents := false,
    skip_cursor := false, detail_level := DetailLevel.standard,
    max_claude_raw := 500, max_agents_raw := 150 }

/-- The session state as `init_session_state` leaves it. -/
def sInitW : SessionState :=
  { analysis_running := false, analysis_complete := false, generated_files := [] }

/-- A session state holding the output of an earlier Analyze run. -/
def sStaleW : SessionState :=
  { analysis_running := false, analysis_complete := false,
    generated_files := [{ name := "old.md", content := "old content" }] }

/-- A filesystem where the repository path exists but none of the output
artifacts do; in particular `repo/.ai/docs` does not exist. -/
def fsOkW : FS :=
  { rootExists := true, docsDir := none, readme := none, claude := none,
    agents := none, cursorRules := none }

/-- A filesystem where the repository path does not exist. -/
def fsMissingW : FS := { fsOkW with rootExists := false }

/-- A filesystem where `repo/README.md` exists with known contents. -/
def fsReadmeW : FS := { fsOkW with readme := some "hello" }

/-- A filesystem where `repo/.ai/docs` exists with one markdown file. -/
def fsDocsW : FS := { fsOkW with docsDir := some [{ name := "a.md", content := "A" }] }

/-! ## Remaining claim theorems and witnesses -/

/-- Claim C3 is false as stated: an Analyze run whose handler call
returns without raising, on a repository where `repo/.ai/docs` does not
exist, still displays and offers for download the file stored by an
earlier run in `generated_files` (the code only overwrites
`generated_files` when the directory exists), so the displayed set
differs from the empty set of markdown files under `repo/.ai/docs`. -/
theorem C3_counterexample_stale_files_displayed :
    fsOkW.docsDir = none
    ∧ downloadsOf (analyze_page true ainpW sStaleW fsOkW (Except.ok ()) fsOkW false).2
        = [("old.md", "old content")] := by
  constructor
  · rfl
  · rfl

/-- Witness for C1 at concrete inputs: the handler call of the Analyze
page raises `"boom"`, the logger also raises, and the error box is
still emitted. -/
theorem C1_witness :
    Effect.stError ("❌ Analysis failed: " ++ "boom")
      ∈ (analyze_page true ainpW sInitW fsOkW (Except.error "boom") fsOkW true).2 :=
  (C1_handler_exception_contained ainpW rinpW binpW true (Except.ok ()) sInitW
    fsOkW fsOkW "boom" true rfl rfl).2.2.2.2.1

/-- Witness for C2 at concrete inputs with a nonexistent repository
path. -/
theorem C2_witness :
    (analyze_page true ainpW sInitW fsMissingW (Except.ok ()) fsMissingW false).2
      = [Effect.stError ("❌ Repository path does not exist: " ++ ainpW.repo_path)] :=
  (C2_nonexistent_path_no_handler_call ainpW rinpW binpW sInitW fsMissingW
    fsMissingW (Except.ok ()) false rfl).1

/-- Witness for the amended C3 at concrete inputs: `repo/.ai/docs`
exists with one markdown file and exactly that file is stored and
downloadable. -/
theorem C3_amended_witness :
    (analyze_page true ainpW sStaleW fsOkW (Except.ok ()) fsDocsW false).1.generated_files
      = [{ name := "a.md", content := "A" }]
    ∧ downloadsOf (analyze_page true ainpW sStaleW fsOkW (Except.ok ()) fsDocsW false).2
      = [("a.md", "A")] :=
  (C3_amended_display_matches_docs ainpW sStaleW fsOkW fsDocsW false rfl).1
    [{ name := "a.md", content := "A" }] rfl

/-- Witness for C4 at concrete inputs: `repo/README.md` exists with
contents `"hello"` after the handler call. -/
theorem C4_witness :
    (readme_page true rinpW sInitW fsOkW (Except.ok ()) fsReadmeW false).2
      = [Effect.callReadme (mkReadmeConfig rinpW),
         Effect.stSuccess "✅ README generated successfully!",
         Effect.stMarkdown "### 📄 Generated README.md",
         Effect.stMarkdown "hello",
         Effect.downloadButton "README.md" "hello"] :=
  (C4_readme_display_iff rinpW sInitW fsOkW fsReadmeW false rfl).1 "hello" rfl

/-- Witness for C5 at concrete inputs: none of the three artifact
locations exists, so nothing beyond the success section is rendered. -/
theorem C5_witness :
    (ai_rules_page true binpW sInitW fsOkW (Except.ok ()) fsOkW false).2
      = [Effect.callAIRules (mkAIRulesConfig binpW),
         Effect.stSuccess "✅ AI rules generated successfully!",
         Effect.stMarkdown "### 📄 Generated Files"] :=
  (C5_ai_rules_artifacts binpW sInitW fsOkW fsOkW false rfl).1

/-- Witness for C6 at concrete inputs. -/
theorem C6_witness :
    passedAnalyzeCfgs (analyze_page true ainpW sInitW fsOkW (Except.ok ()) fsOkW false).2
      = [mkAnalyzeConfig ainpW] :=
  (C6_config_pure_function ainpW rinpW binpW sInitW sStaleW fsOkW fsOkW fsOkW fsOkW
    (Except.ok ()) (Except.error "boom") false true rfl rfl).1

/-- Witness for C7 at concrete inputs. -/
theorem C7_witness :
    passedReadmeCfgs (readme_page true rinpW sInitW fsOkW (Except.ok ()) fsOkW false).2
      = [mkReadmeConfig rinpW] :=
  (C7_exclude_additional_documentation_false rinpW sInitW fsOkW fsOkW
    (Except.ok ()) false rfl).1

/-- Witness for C9 at concrete inputs with a nonexistent repository
path. -/
theorem C9_witness :
    (analyze_page true ainpW sStaleW fsMissingW (Except.ok ()) fsMissingW false).1 = sStaleW :=
  (C9_nonexistent_path_session_unchanged ainpW rinpW binpW sStaleW fsMissingW
    fsMissingW (Except.ok ()) false rfl).1
